import Mathlib

/-!
Verification development for the AI proctoring backend
(`backend/app`): a shallow embedding of the frame-admission sampler,
the gaze state machine, the behavioral sliding window and the risk
scorer, followed by theorems settling the specification claims.

Modelling conventions:
* Python floats (timestamps, angles, scores) are modelled as `ℚ`;
  every operation the embedded code performs on them (+, -, *, /,
  comparisons, `min`, `max`, `abs`, mean) is exact in `ℚ`.
* The computer-vision components (MediaPipe face mesh / solvePnP,
  YOLO) are abstracted to their outputs: the gaze detector's step
  takes the head-pose angles that `_calculate_head_pose` would
  return (or `none` when no face is found), and the pipeline step
  takes the object-detector results as part of the frame input.
  All control flow downstream of those outputs is embedded.
* Python `collections.deque(maxlen = n)` is modelled as a list
  (oldest first) with `dequePush` keeping the most recent `n`.
* Dictionaries returned by the modules are modelled as structures
  holding the fields the claims and their readers use; a key a
  producer omits is represented by the default value its consumers
  would read via `.get` (e.g. `deviation` defaults to `false`,
  `deviation_duration` to `0`).
-/

namespace Proctoring

/-! ## Configuration (`backend/app/config.py`) -/

namespace Settings

def MINOR_YAW_THRESHOLD : ℚ := 30

def MINOR_PITCH_THRESHOLD : ℚ := 25

def SCREEN_YAW_THRESHOLD : ℚ := 45

def SCREEN_PITCH_THRESHOLD : ℚ := 35

def GAZE_DEVIATION_DURATION : ℚ := 3

def GAZE_EXTENDED_DURATION : ℚ := 10

def GAZE_CRITICAL_DURATION : ℚ := 20

def HEAD_POSE_SMOOTHING_WINDOW : Nat := 5

def DEVIATION_GRACE_PERIOD : ℚ := 3/2

def DEVIATION_CONSISTENCY_THRESHOLD : ℚ := 3/5

def WINDOW_SIZE : Nat := 200

def SECONDARY_PERSON_WEIGHT : ℚ := 60

def FORBIDDEN_OBJECT_WEIGHT : ℚ := 70

def SCREEN_DEVIATION_BASE_WEIGHT : ℚ := 50

def SCREEN_DEVIATION_EXTENDED_WEIGHT : ℚ := 70

def SCREEN_DEVIATION_CRITICAL_WEIGHT : ℚ := 90

def MULTIPLE_VIOLATIONS_MULTIPLIER : ℚ := 13/10

end Settings

/-! ## Bounded deque (`collections.deque(maxlen = n)`)

A deque with `maxlen = n` keeps the `n` most recently appended
items; appending to a full deque discards the item at the opposite
end. Lists are oldest-first. -/

def dequePush {α : Type} (maxlen : Nat) (q : List α) (x : α) : List α :=
  (q ++ [x]).drop (q.length + 1 - maxlen)

/-- Mean of a list of rationals (`np.mean`); `0` on the empty list
(the embedded code only takes means of non-empty histories). -/
def listMean (l : List ℚ) : ℚ :=
  if l.length = 0 then 0 else l.sum / (l.length : ℚ)

/-! ## Gaze detector (`backend/app/detectors/gaze_detector.py`)

State of one `GazeDetector` instance: the deviation timer triple and
the smoothing / consistency histories (`__init__`, lines 73–86).
The bounding-box smoothing histories are omitted: no claim, and no
consumer the claims mention, reads them. -/

structure GazeState where
  deviationStart : Option ℚ
  currentDuration : ℚ
  lastNormal : Option ℚ
  yawHistory : List ℚ
  pitchHistory : List ℚ
  deviationHistory : List Bool
  deriving Repr, DecidableEq

def initGazeState : GazeState :=
  { deviationStart := none
    currentDuration := 0
    lastNormal := none
    yawHistory := []
    pitchHistory := []
    deviationHistory := [] }

/-- Head-pose angles that `_calculate_head_pose` produces for a
detected face (the PnP geometry itself is abstracted). -/
structure FaceInput where
  yaw : ℚ
  pitch : ℚ
  deriving Repr, DecidableEq

/-- Fields of the gaze result dictionary that the claims and the
risk scorer read. On a no-face frame the omitted keys
(`minor_deviation`, `deviation_consistency`) are represented by the
defaults their readers would use. -/
structure GazeResults where
  face_detected : Bool
  yaw : ℚ
  pitch : ℚ
  deviation : Bool
  minor_deviation : Bool
  deviation_duration : ℚ
  deviation_consistency : ℚ
  deriving Repr, DecidableEq

/-- `GazeDetector._check_deviation`: two-tier threshold test on the
smoothed angles, returning `(minor_deviation, screen_deviation)`. -/
def checkDeviation (yaw pitch : ℚ) : Bool × Bool :=
  let minor_yaw := decide (|yaw| > Settings.MINOR_YAW_THRESHOLD)
  let minor_pitch := decide (|pitch| > Settings.MINOR_PITCH_THRESHOLD)
  let screen_yaw := decide (|yaw| > Settings.SCREEN_YAW_THRESHOLD)
  let screen_pitch := decide (|pitch| > Settings.SCREEN_PITCH_THRESHOLD)
  (minor_yaw || minor_pitch, screen_yaw || screen_pitch)

/-- `GazeDetector._update_deviation_duration_with_grace`: updates the
deviation timer triple given whether the current frame shows
sustained deviation, at wall-clock time `t`. -/
def updateDeviationDurationWithGrace (st : GazeState) (isDeviation : Bool)
    (t : ℚ) : GazeState :=
  if isDeviation then
    let start := st.deviationStart.getD t
    { st with
      deviationStart := some start
      lastNormal := none
      currentDuration := t - start }
  else
    match st.deviationStart with
    | some start =>
        let ln := st.lastNormal.getD t
        if t - ln ≥ Settings.DEVIATION_GRACE_PERIOD then
          -- grace period elapsed: full reset
          { st with
            deviationStart := none
            currentDuration := 0
            lastNormal := none }
        else
          -- within the grace period: only `last_normal_time` is written
          { st with
            deviationStart := some start
            lastNormal := some ln }
    | none =>
        { st with currentDuration := 0, lastNormal := none }

/-- Fraction of `true` entries in the consistency window
(`sum(self.deviation_history) / len(self.deviation_history)`). -/
def deviationConsistency (hist : List Bool) : ℚ :=
  if hist.length = 0 then 0
  else ((hist.filter (· = true)).length : ℚ) / (hist.length : ℚ)

/-- `GazeDetector._detect_sync` at wall-clock time `t`: `none` means
MediaPipe found no face landmarks; `some f` carries the head-pose
angles the PnP step would yield. Returns the new detector state and
the result dictionary. -/
def detectSync (st : GazeState) (face : Option FaceInput) (t : ℚ) :
    GazeState × GazeResults :=
  match face with
  | none =>
      -- no face: reset deviation tracking completely
      let st' := { st with
        deviationStart := none
        currentDuration := 0
        lastNormal := none }
      (st',
        { face_detected := false
          yaw := 0
          pitch := 0
          deviation := false
          minor_deviation := false
          deviation_duration := 0
          deviation_consistency := 0 })
  | some f =>
      let yawHist := dequePush Settings.HEAD_POSE_SMOOTHING_WINDOW st.yawHistory f.yaw
      let pitchHist := dequePush Settings.HEAD_POSE_SMOOTHING_WINDOW st.pitchHistory f.pitch
      let smoothedYaw := listMean yawHist
      let smoothedPitch := listMean pitchHist
      let dev := checkDeviation smoothedYaw smoothedPitch
      let devHist := dequePush Settings.HEAD_POSE_SMOOTHING_WINDOW st.deviationHistory dev.2
      let consistency := deviationConsistency devHist
      let sustained := decide (consistency ≥ Settings.DEVIATION_CONSISTENCY_THRESHOLD)
      let st1 := { st with
        yawHistory := yawHist
        pitchHistory := pitchHist
        deviationHistory := devHist }
      let st2 := updateDeviationDurationWithGrace st1 sustained t
      (st2,
        { face_detected := true
          yaw := smoothedYaw
          pitch := smoothedPitch
          deviation := sustained
          minor_deviation := dev.1
          deviation_duration := st2.currentDuration
          deviation_consistency := consistency })

/-! ## Adaptive frame sampler
(`backend/app/preprocessing/image_preprocessor.py`, `AdaptiveFrameSampler`)

A blurred grayscale frame is modelled as its list of pixel values;
`motionScore` is the mean absolute pixel difference with the stored
previous grayscale frame (`cv2.absdiff` + `np.mean`). The stored
`prev_frame` colour copy is never read by the admission logic and is
not modelled. -/

structure SamplerConfig where
  motion_threshold : ℚ
  min_fps : ℚ
  max_fps : ℚ
  deriving Repr, DecidableEq

/-- The configuration `DetectionPipeline.__init__` passes
(`motion_threshold=10.0, min_fps=2.0, max_fps=10.0`). -/
def pipelineSamplerConfig : SamplerConfig :=
  { motion_threshold := 10, min_fps := 2, max_fps := 10 }

structure SamplerState where
  prevGray : Option (List ℚ)
  frameCount : Nat
  processedCount : Nat
  lastProcessTime : ℚ
  deriving Repr, DecidableEq

def initSamplerState : SamplerState :=
  { prevGray := none, frameCount := 0, processedCount := 0, lastProcessTime := 0 }

/-- Mean absolute difference of two grayscale frames. -/
def motionScore (prev cur : List ℚ) : ℚ :=
  listMean (List.zipWith (fun a b => |a - b|) prev cur)

/-- `AdaptiveFrameSampler.should_process_frame`: decides whether the
frame (given as its blurred grayscale pixels) at time `t` is
admitted, returning the decision and the updated sampler state. -/
def shouldProcessFrame (cfg : SamplerConfig) (st : SamplerState)
    (grayBlur : List ℚ) (t : ℚ) : Bool × SamplerState :=
  -- `self.frame_count += 1` happens before the branch; it does not
  -- change `prev_gray`, so the branch below reads the original value
  let stc := { st with frameCount := st.frameCount + 1 }
  match st.prevGray with
  | none =>
      -- first frame: always process
      (true,
        { stc with
          prevGray := some grayBlur
          lastProcessTime := t
          processedCount := stc.processedCount + 1 })
  | some prev =>
      let score := motionScore prev grayBlur
      let motionDetected := decide (score > cfg.motion_threshold)
      let timeSinceLast := t - st.lastProcessTime
      let minInterval := 1 / cfg.max_fps
      let maxInterval := 1 / cfg.min_fps
      let shouldAdmit :=
        if motionDetected then decide (timeSinceLast ≥ minInterval)
        else decide (timeSinceLast ≥ maxInterval)
      if shouldAdmit then
        (true,
          { stc with
            prevGray := some grayBlur
            lastProcessTime := t
            processedCount := stc.processedCount + 1 })
      else
        (false, stc)

/-! ## Object-detector results (`backend/app/detectors/object_detector.py`)

Only the output fields the scorer and the behavior analyzer read. -/

structure ForbiddenItem where
  objectName : String
  confidence : ℚ
  deriving Repr, DecidableEq

structure ObjectResults where
  forbidden_items : List ForbiddenItem
  person_count : Nat
  deriving Repr, DecidableEq

def emptyObjectResults : ObjectResults :=
  { forbidden_items := [], person_count := 0 }

/-! ## Behavior analyzer (`backend/app/detectors/behavior_analyzer.py`) -/

/-- One session's history deques (all `maxlen = window_size`). -/
structure SessionHistory where
  gaze_deviations : List Bool
  forbidden_objects : List (List ForbiddenItem)
  person_counts : List Nat
  timestamps : List ℚ
  deriving Repr, DecidableEq

def emptySessionHistory : SessionHistory :=
  { gaze_deviations := []
    forbidden_objects := []
    person_counts := []
    timestamps := [] }

/-- `BehaviorAnalyzer.session_history`: a `defaultdict` keyed by
session id; a session never touched holds the fresh empty deques. -/
def BehaviorState : Type := String → SessionHistory

def initBehaviorState : BehaviorState := fun _ => emptySessionHistory

/-- Per-frame data `_update_history` extracts from the detection
results. -/
structure DetectionEntry where
  gaze_deviation : Bool
  forbidden_items : List ForbiddenItem
  person_count : Nat
  timestamp : ℚ
  deriving Repr, DecidableEq

/-- Append one entry to each of a session's deques. -/
def pushEntry (windowSize : Nat) (h : SessionHistory) (d : DetectionEntry) :
    SessionHistory :=
  { gaze_deviations := dequePush windowSize h.gaze_deviations d.gaze_deviation
    forbidden_objects := dequePush windowSize h.forbidden_objects d.forbidden_items
    person_counts := dequePush windowSize h.person_counts d.person_count
    timestamps := dequePush windowSize h.timestamps d.timestamp }

/-- `BehaviorAnalyzer._update_history`: updates only the entry keyed
by `sid`. -/
def updateHistory (windowSize : Nat) (bs : BehaviorState) (sid : String)
    (d : DetectionEntry) : BehaviorState :=
  Function.update bs sid (pushEntry windowSize (bs sid) d)

structure BehaviorResults where
  repeated_deviations : Nat
  repeated_objects : Nat
  pattern_score : ℚ
  avg_person_count : ℚ
  window_frames : Nat
  deriving Repr, DecidableEq

/-- `BehaviorAnalyzer._calculate_pattern_score`. -/
def calculatePatternScore (windowSize : Nat) (repeatedDeviations repeatedObjects : Nat)
    (avgPersonCount : ℚ) : ℚ :=
  let deviationFrac : ℚ :=
    if windowSize > 0 then (repeatedDeviations : ℚ) / (windowSize : ℚ) else 0
  let objectFrac : ℚ :=
    if windowSize > 0 then (repeatedObjects : ℚ) / (windowSize : ℚ) else 0
  min (deviationFrac * 30 + objectFrac * 40 + max 0 (avgPersonCount - 1) * 30) 100

/-- The pattern analysis `_analyze_sync` performs on a session's
(already updated) history. -/
def analyzeHistory (windowSize : Nat) (h : SessionHistory) : BehaviorResults :=
  let repeatedDeviations := (h.gaze_deviations.filter (· = true)).length
  let repeatedObjects := (h.forbidden_objects.filter (fun o => o.length > 0)).length
  let avgPersonCount :=
    if h.person_counts.length = 0 then 0
    else ((h.person_counts.map (fun n => (n : ℚ))).sum) / (h.person_counts.length : ℚ)
  { repeated_deviations := repeatedDeviations
    repeated_objects := repeatedObjects
    pattern_score := calculatePatternScore windowSize repeatedDeviations repeatedObjects avgPersonCount
    avg_person_count := avgPersonCount
    window_frames := h.gaze_deviations.length }

/-! ## Risk scorer (`backend/app/core/risk_scorer.py`) -/

structure RiskScorer where
  secondary_person_weight : ℚ
  forbidden_object_weight : ℚ
  screen_deviation_base_weight : ℚ
  screen_deviation_extended_weight : ℚ
  screen_deviation_critical_weight : ℚ
  multiple_violations_multiplier : ℚ
  deriving Repr, DecidableEq

/-- `RiskScorer()` with all weights taken from settings. -/
def defaultRiskScorer : RiskScorer :=
  { secondary_person_weight := Settings.SECONDARY_PERSON_WEIGHT
    forbidden_object_weight := Settings.FORBIDDEN_OBJECT_WEIGHT
    screen_deviation_base_weight := Settings.SCREEN_DEVIATION_BASE_WEIGHT
    screen_deviation_extended_weight := Settings.SCREEN_DEVIATION_EXTENDED_WEIGHT
    screen_deviation_critical_weight := Settings.SCREEN_DEVIATION_CRITICAL_WEIGHT
    multiple_violations_multiplier := Settings.MULTIPLE_VIOLATIONS_MULTIPLIER }

/-- Fields of the scorer's return dictionary that the claims read;
`base_score`, `screen_deviation_contribution` and
`multiplier_applied` are the corresponding `details` entries (the
code writes `details["base_score"]` after the multiplier and the
pattern score have been folded in). The `violations` strings and
`recommendations` involve only float formatting and are not
modelled; `violation_count` carries the information the claims
use. -/
structure RiskResults where
  risk_score : ℚ
  violation_count : Nat
  alert_level : String
  base_score : ℚ
  screen_deviation_contribution : ℚ
  multiplier_applied : Bool
  deriving Repr, DecidableEq

/-- `RiskScorer._determine_alert_level`. -/
def determineAlertLevel (score : ℚ) : String :=
  if score ≥ 80 then "critical"
  else if score ≥ 50 then "high"
  else if score ≥ 20 then "medium"
  else "low"

/-- The tier weight the scorer adds for a gaze deviation frame (the
code computes it twice, once for the base score and once for
`details["screen_deviation_contribution"]`, identically). -/
def screenDeviationWeight (rs : RiskScorer) (gaze : GazeResults) : ℚ :=
  if gaze.deviation then
    if gaze.deviation_duration ≥ Settings.GAZE_DEVIATION_DURATION then
      if gaze.deviation_duration ≥ Settings.GAZE_CRITICAL_DURATION then
        rs.screen_deviation_critical_weight
      else if gaze.deviation_duration ≥ Settings.GAZE_EXTENDED_DURATION then
        rs.screen_deviation_extended_weight
      else
        rs.screen_deviation_base_weight
    else 0
  else 0

/-- Whether the gaze stream contributes a violation: a sustained
deviation whose duration passed the minimum threshold. -/
def gazeViolated (gaze : GazeResults) : Bool :=
  gaze.deviation && decide (gaze.deviation_duration ≥ Settings.GAZE_DEVIATION_DURATION)

/-- Summed forbidden-object contribution: `forbidden_object_weight *
confidence` per item. -/
def objectScore (rs : RiskScorer) (objects : ObjectResults) : ℚ :=
  (objects.forbidden_items.map (fun item => rs.forbidden_object_weight * item.confidence)).sum

/-- Secondary-person contribution: `secondary_person_weight` per
extra person beyond the first. -/
def personScore (rs : RiskScorer) (objects : ObjectResults) : ℚ :=
  if objects.person_count > 1 then
    rs.secondary_person_weight * ((objects.person_count - 1 : Nat) : ℚ)
  else 0

/-- `violation_count`: the gaze stream, the forbidden-object group
and the extra-person group each contribute at most one. -/
def violationCount (gaze : GazeResults) (objects : ObjectResults) : Nat :=
  (if gazeViolated gaze then 1 else 0)
    + (if objects.forbidden_items.isEmpty then 0 else 1)
    + (if objects.person_count > 1 then 1 else 0)

/-- The summed base score before the concurrency multiplier. -/
def summedBaseScore (rs : RiskScorer) (gaze : GazeResults)
    (objects : ObjectResults) : ℚ :=
  screenDeviationWeight rs gaze + objectScore rs objects + personScore rs objects

/-- Base score after the concurrency multiplier (applied only when
`violation_count > 1`). -/
def scoreAfterMultiplier (rs : RiskScorer) (gaze : GazeResults)
    (objects : ObjectResults) : ℚ :=
  if violationCount gaze objects > 1 then
    summedBaseScore rs gaze objects * rs.multiple_violations_multiplier
  else summedBaseScore rs gaze objects

/-- `RiskScorer.calculate_score` on the three detector result
dictionaries. -/
def calculateScore (rs : RiskScorer) (gaze : GazeResults)
    (objects : ObjectResults) (behavior : BehaviorResults) : RiskResults :=
  -- behavior pattern score added after the multiplier, then cap at 100
  let withPattern := scoreAfterMultiplier rs gaze objects + behavior.pattern_score
  let finalScore := min withPattern 100
  { risk_score := finalScore
    violation_count := violationCount gaze objects
    alert_level := determineAlertLevel finalScore
    base_score := withPattern
    screen_deviation_contribution := screenDeviationWeight rs gaze
    multiplier_applied := decide (violationCount gaze objects > 1) }

/-! ## Detection pipeline (`backend/app/core/detection_pipeline.py`)

The single global pipeline `websocket.initialize_pipeline` creates
(adaptive sampling enabled) serves every websocket session: one
shared `GazeDetector`, one shared `AdaptiveFrameSampler`, and the
behavior analyzer's per-session map. Image preprocessing and ROI
extraction only transform pixels before the abstracted CV stages and
do not touch any of this state. -/

structure PipelineState where
  gaze : GazeState
  sampler : SamplerState
  behavior : BehaviorState

def initPipelineState : PipelineState :=
  { gaze := initGazeState
    sampler := initSamplerState
    behavior := initBehaviorState }

/-- One incoming frame, abstracted to what the embedded stages
consume: its blurred grayscale pixels (for the sampler), the face
pose the gaze CV front-end would extract (`none` if no face), and
the object-detector results. -/
structure FrameInput where
  grayBlur : List ℚ
  face : Option FaceInput
  objects : ObjectResults
  deriving Repr, DecidableEq

structure FrameResults where
  gaze : GazeResults
  behavior : BehaviorResults
  risk : RiskResults
  frame_skipped : Bool
  deriving Repr, DecidableEq

/-- `DetectionPipeline._get_skipped_frame_results` (the fields
modelled here). -/
def skippedFrameResults : FrameResults :=
  { gaze :=
      { face_detected := false
        yaw := 0
        pitch := 0
        deviation := false
        minor_deviation := false
        deviation_duration := 0
        deviation_consistency := 0 }
    behavior :=
      { repeated_deviations := 0
        repeated_objects := 0
        pattern_score := 0
        avg_person_count := 0
        window_frames := 0 }
    risk :=
      { risk_score := 0
        violation_count := 0
        alert_level := "none"
        base_score := 0
        screen_deviation_contribution := 0
        multiplier_applied := false }
    frame_skipped := true }

/-- `DetectionPipeline.process_frame` for session `sid` at time `t`:
adaptive sampling, then gaze detection, behavior analysis (which
updates the session's history first) and risk scoring. -/
def processFrame (ps : PipelineState) (sid : String) (input : FrameInput)
    (t : ℚ) : PipelineState × FrameResults :=
  let sampled := shouldProcessFrame pipelineSamplerConfig ps.sampler input.grayBlur t
  if sampled.1 then
    let gazeStep := detectSync ps.gaze input.face t
    let entry : DetectionEntry :=
      { gaze_deviation := gazeStep.2.deviation
        forbidden_items := input.objects.forbidden_items
        person_count := input.objects.person_count
        timestamp := t }
    let behavior' := updateHistory Settings.WINDOW_SIZE ps.behavior sid entry
    let behaviorOut := analyzeHistory Settings.WINDOW_SIZE (behavior' sid)
    let riskOut := calculateScore defaultRiskScorer gazeStep.2 input.objects behaviorOut
    (⟨gazeStep.1, sampled.2, behavior'⟩,
      { gaze := gazeStep.2
        behavior := behaviorOut
        risk := riskOut
        frame_skipped := false })
  else
    ({ ps with sampler := sampled.2 }, skippedFrameResults)

/-! ## Specification-side definitions

Definitions below follow the spec's wording, to be compared with the
embedded code. -/

/-- The number of distinct violation types simultaneously present,
in the spec's sense: a (scored) sustained gaze deviation counts as
one, the forbidden-object group counts as one type regardless of
how many items were detected, and the extra-person group counts as
one. -/
def specViolationTypes (gaze : GazeResults) (objects : ObjectResults) : Nat :=
  (if gaze.deviation = true ∧
      gaze.deviation_duration ≥ Settings.GAZE_DEVIATION_DURATION then 1 else 0)
    + (if objects.forbidden_items ≠ [] then 1 else 0)
    + (if objects.person_count > 1 then 1 else 0)

/-- The spec's admission rule for a frame that is not the first of a
session: admit iff (motion score exceeds the threshold and the time
since the last admission is at least `1/max_fps`) or the time since
the last admission is at least `1/min_fps` regardless of motion;
the first frame is always admitted; admission replaces the stored
previous frame and admission timestamp. -/
def AdmissionSpec (cfg : SamplerConfig) (st : SamplerState)
    (grayBlur : List ℚ) (t : ℚ) : Prop :=
  (st.prevGray = none → (shouldProcessFrame cfg st grayBlur t).1 = true) ∧
    (∀ prev, st.prevGray = some prev →
      ((shouldProcessFrame cfg st grayBlur t).1 = true ↔
        (motionScore prev grayBlur > cfg.motion_threshold ∧
            t - st.lastProcessTime ≥ 1 / cfg.max_fps) ∨
          t - st.lastProcessTime ≥ 1 / cfg.min_fps)) ∧
    ((shouldProcessFrame cfg st grayBlur t).1 = true →
      (shouldProcessFrame cfg st grayBlur t).2.prevGray = some grayBlur ∧
        (shouldProcessFrame cfg st grayBlur t).2.lastProcessTime = t)

/-- The lengths of all four deques of one session's history are
bounded by the window size. -/
def historyLengthsLE (n : Nat) (h : SessionHistory) : Prop :=
  h.gaze_deviations.length ≤ n ∧ h.forbidden_objects.length ≤ n ∧
    h.person_counts.length ≤ n ∧ h.timestamps.length ≤ n

/-- Run a sequence of history updates (each tagged with its session
id) from the fresh analyzer state. -/
def runBehaviorUpdates (n : Nat) (updates : List (String × DetectionEntry)) :
    BehaviorState :=
  updates.foldl (fun bs u => updateHistory n bs u.1 u.2) initBehaviorState

/-! ## Concrete inputs and traces -/

/-- A quiet gaze result: face found, looking straight ahead. -/
def gazeNoDeviation : GazeResults :=
  { face_detected := true
    yaw := 0
    pitch := 0
    deviation := false
    minor_deviation := false
    deviation_duration := 0
    deviation_consistency := 0 }

/-- A behavior result with no accumulated pattern. -/
def behaviorZero : BehaviorResults :=
  { repeated_deviations := 0
    repeated_objects := 0
    pattern_score := 0
    avg_person_count := 0
    window_frames := 0 }

/-- A behavior-result input whose pattern score is negative. -/
def behaviorNegPattern : BehaviorResults :=
  { behaviorZero with pattern_score := -1 }

/-- An extreme synthetic object result: ten simultaneous forbidden
items and five persons in frame. -/
def extremeObjects : ObjectResults :=
  { forbidden_items := List.replicate 10 ⟨"cell phone", 9/10⟩
    person_count := 5 }

/-- An extreme gaze result: critical-duration sustained deviation. -/
def extremeGaze : GazeResults :=
  { face_detected := true
    yaw := 80
    pitch := 50
    deviation := true
    minor_deviation := true
    deviation_duration := 25
    deviation_consistency := 1 }

/-- An extreme behavior result: near-saturated pattern score. -/
def extremeBehavior : BehaviorResults :=
  { repeated_deviations := 150
    repeated_objects := 120
    pattern_score := 80
    avg_person_count := 3
    window_frames := 200 }

/-- Object results with three persons and nothing else. -/
def threePersonObjects : ObjectResults :=
  { forbidden_items := [], person_count := 3 }

/-- The trace refuting C3: sustained deviation begins at `t = 0` and
lasts through `t = 2`; normal gaze resumes at `t = 3` (GRACE
begins) and persists at `t = 4`, still inside the 1.5 s grace
period. -/
def c3AfterDeviating : GazeState :=
  updateDeviationDurationWithGrace
    (updateDeviationDurationWithGrace initGazeState true 0) true 2

def c3Grace1 : GazeState := updateDeviationDurationWithGrace c3AfterDeviating false 3

def c3Grace2 : GazeState := updateDeviationDurationWithGrace c3Grace1 false 4

/-- A base-tier gaze result: sustained deviation for 5 seconds. -/
def baseTierGaze : GazeResults :=
  { face_detected := true
    yaw := 60
    pitch := 0
    deviation := true
    minor_deviation := true
    deviation_duration := 5
    deviation_consistency := 1 }

/-- A sampler state that already holds a previous frame, admitted at
time `0`. -/
def midSessionSampler : SamplerState :=
  { prevGray := some [0], frameCount := 1, processedCount := 1, lastProcessTime := 0 }

/-- A session history at capacity for window size 2. -/
def fullHistoryTwo : SessionHistory :=
  { gaze_deviations := [true, false]
    forbidden_objects := [[], [⟨"book", 1/2⟩]]
    person_counts := [1, 2]
    timestamps := [0, 1] }

/-- A detection entry used for the C8 witness. -/
def witnessEntry : DetectionEntry :=
  { gaze_deviation := true
    forbidden_items := []
    person_count := 1
    timestamp := 2 }

/-- Updates used for the C8 witness: three frames for session `s1`
interleaved with one for `s2`, under window size 2. -/
def witnessUpdates : List (String × DetectionEntry) :=
  [("s1", ⟨false, [], 1, 0⟩), ("s2", ⟨true, [], 2, 0⟩),
    ("s1", ⟨true, [], 1, 1⟩), ("s1", ⟨false, [], 1, 2⟩)]

/-- A face looking 90° to the side: far beyond the screen-deviation
yaw threshold even after smoothing. -/
def sidewaysFace : FaceInput := { yaw := 90, pitch := 0 }

/-- The C10 trace: three deviating frames at `t = 0, 1, 2`, a
no-face frame at `t = 3`, then the face returns (still deviated) at
`t = 4`. -/
def c10ThreeDeviating : GazeState :=
  (detectSync ((detectSync ((detectSync initGazeState
    (some sidewaysFace) 0).1) (some sidewaysFace) 1).1) (some sidewaysFace) 2).1

def c10AfterLoss : GazeState × GazeResults := detectSync c10ThreeDeviating none 3

def c10Return : GazeState × GazeResults := detectSync c10AfterLoss.1 (some sidewaysFace) 4

/-- Frames for the C2 counterexample, given by their blurred
grayscale pixel lists (no face, no objects). -/
def quietFrame : FrameInput :=
  { grayBlur := [0], face := none, objects := emptyObjectResults }

def brightFrame : FrameInput :=
  { grayBlur := [100], face := none, objects := emptyObjectResults }

/-- World 1: session B sends a frame at `t = 0` and one at
`t = 0.6`. -/
def c2AfterB1 : PipelineState := (processFrame initPipelineState "B" quietFrame 0).1

def c2World1B2 : FrameResults := (processFrame c2AfterB1 "B" brightFrame (3/5)).2

/-- World 2: identical, except session A's frame arrives in between
at `t = 0.55` and is admitted by the shared sampler. -/
def c2AfterA : PipelineState := (processFrame c2AfterB1 "A" brightFrame (11/20)).1

def c2World2B2 : FrameResults := (processFrame c2AfterA "B" brightFrame (3/5)).2

/-! ## Basic lemmas -/

theorem calculateScore_risk_score (rs : RiskScorer) (gaze : GazeResults)
    (objects : ObjectResults) (behavior : BehaviorResults) :
    (calculateScore rs gaze objects behavior).risk_score
      = min (scoreAfterMultiplier rs gaze objects + behavior.pattern_score) 100 := rfl

theorem calculateScore_violation_count (rs : RiskScorer) (gaze : GazeResults)
    (objects : ObjectResults) (behavior : BehaviorResults) :
    (calculateScore rs gaze objects behavior).violation_count
      = violationCount gaze objects := rfl

theorem calculateScore_multiplier_applied (rs : RiskScorer) (gaze : GazeResults)
    (objects : ObjectResults) (behavior : BehaviorResults) :
    (calculateScore rs gaze objects behavior).multiplier_applied
      = decide (violationCount gaze objects > 1) := rfl

theorem calculateScore_screen_contribution (rs : RiskScorer) (gaze : GazeResults)
    (objects : ObjectResults) (behavior : BehaviorResults) :
    (calculateScore rs gaze objects behavior).screen_deviation_contribution
      = screenDeviationWeight rs gaze := rfl

theorem screenDeviationWeight_nonneg (rs : RiskScorer) (gaze : GazeResults)
    (hw3 : 0 ≤ rs.screen_deviation_base_weight)
    (hw4 : 0 ≤ rs.screen_deviation_extended_weight)
    (hw5 : 0 ≤ rs.screen_deviation_critical_weight) :
    0 ≤ screenDeviationWeight rs gaze := by
  unfold screenDeviationWeight
  split_ifs <;> first | exact le_refl 0 | assumption

theorem summedBaseScore_nonneg (rs : RiskScorer) (gaze : GazeResults)
    (objects : ObjectResults)
    (hw1 : 0 ≤ rs.secondary_person_weight) (hw2 : 0 ≤ rs.forbidden_object_weight)
    (hw3 : 0 ≤ rs.screen_deviation_base_weight)
    (hw4 : 0 ≤ rs.screen_deviation_extended_weight)
    (hw5 : 0 ≤ rs.screen_deviation_critical_weight)
    (hc : ∀ item ∈ objects.forbidden_items, 0 ≤ item.confidence) :
    0 ≤ summedBaseScore rs gaze objects := by
  have hobj : 0 ≤ objectScore rs objects := by
    unfold objectScore
    apply List.sum_nonneg
    intro x hx
    simp only [List.mem_map] at hx
    obtain ⟨item, hitem, rfl⟩ := hx
    exact mul_nonneg hw2 (hc item hitem)
  have hperson : 0 ≤ personScore rs objects := by
    unfold personScore
    split_ifs with h
    · exact mul_nonneg hw1 (by positivity)
    · exact le_refl 0
  have hscreen := screenDeviationWeight_nonneg rs gaze hw3 hw4 hw5
  unfold summedBaseScore
  linarith

theorem dequePush_length_le {α : Type} (n : Nat) (q : List α) (x : α) :
    (dequePush n q x).length ≤ n := by
  simp [dequePush]
  omega

theorem dequePush_at_capacity {α : Type} (n : Nat) (q : List α) (x : α)
    (hn : 0 < n) (hq : q.length = n) : dequePush n q x = q.drop 1 ++ [x] := by
  unfold dequePush
  rw [hq]
  have h1 : n + 1 - n = 1 := by omega
  rw [h1, List.drop_append_eq_append_drop]
  have h2 : 1 - q.length = 0 := by omega
  rw [h2, List.drop_zero]

theorem pushEntry_lengths_le (n : Nat) (h : SessionHistory) (d : DetectionEntry) :
    historyLengthsLE n (pushEntry n h d) :=
  ⟨dequePush_length_le n _ _, dequePush_length_le n _ _,
    dequePush_length_le n _ _, dequePush_length_le n _ _⟩

theorem runBehaviorUpdates_lengths_le (n : Nat)
    (updates : List (String × DetectionEntry)) :
    ∀ sid, historyLengthsLE n (runBehaviorUpdates n updates sid) := by
  unfold runBehaviorUpdates
  suffices haux : ∀ (us : List (String × DetectionEntry)) (bs : BehaviorState),
      (∀ sid, historyLengthsLE n (bs sid)) →
      ∀ sid,
        historyLengthsLE n
          ((us.foldl (fun bs u => updateHistory n bs u.1 u.2) bs) sid) by
    apply haux
    intro sid
    exact ⟨Nat.zero_le n, Nat.zero_le n, Nat.zero_le n, Nat.zero_le n⟩
  intro us
  induction us with
  | nil => intro bs hbs sid; exact hbs sid
  | cons u rest ih =>
      intro bs hbs sid
      apply ih
      intro sid'
      simp only [updateHistory]
      rcases eq_or_ne sid' u.1 with he | he
      · subst he
        rw [Function.update_same]
        exact pushEntry_lengths_le n _ u.2
      · rw [Function.update_noteq he]
        exact hbs sid'

/-! ## C1 -/

/-- C1, counterexample: the code only caps the score from above
(`min(base_score, 100.0)`); with a behavior pattern score of `-1`
and no violations the returned `risk_score` is `-1`, outside
`[0, 100]`, so the claim fails for unrestricted input bundles. -/
theorem c1_counterexample :
    (calculateScore defaultRiskScorer gazeNoDeviation emptyObjectResults
      behaviorNegPattern).risk_score < 0 := by
  norm_num [calculateScore_risk_score, scoreAfterMultiplier, summedBaseScore,
    violationCount, gazeViolated, screenDeviationWeight, objectScore, personScore,
    behaviorNegPattern, behaviorZero, gazeNoDeviation, emptyObjectResults]

/-- C1 (amended): for every input bundle whose behavior pattern
score and item confidences are nonnegative (as all weights of the
scorer are), the returned `risk_score` lies in `[0, 100]`; the upper
cap holds unconditionally. -/
theorem c1_risk_score_range (rs : RiskScorer) (gaze : GazeResults)
    (objects : ObjectResults) (behavior : BehaviorResults)
    (hw1 : 0 ≤ rs.secondary_person_weight) (hw2 : 0 ≤ rs.forbidden_object_weight)
    (hw3 : 0 ≤ rs.screen_deviation_base_weight)
    (hw4 : 0 ≤ rs.screen_deviation_extended_weight)
    (hw5 : 0 ≤ rs.screen_deviation_critical_weight)
    (hm : 0 ≤ rs.multiple_violations_multiplier)
    (hp : 0 ≤ behavior.pattern_score)
    (hc : ∀ item ∈ objects.forbidden_items, 0 ≤ item.confidence) :
    0 ≤ (calculateScore rs gaze objects behavior).risk_score ∧
      (calculateScore rs gaze objects behavior).risk_score ≤ 100 := by
  rw [calculateScore_risk_score]
  have hsum := summedBaseScore_nonneg rs gaze objects hw1 hw2 hw3 hw4 hw5 hc
  have hmult : 0 ≤ scoreAfterMultiplier rs gaze objects := by
    unfold scoreAfterMultiplier
    split_ifs
    · exact mul_nonneg hsum hm
    · exact hsum
  constructor
  · exact le_min (by linarith) (by norm_num)
  · exact min_le_right _ _

/-- C1 witness: the range theorem applied to the default scorer on
an extreme synthetic bundle (ten forbidden items, five persons,
critical gaze deviation, pattern score 80). -/
theorem c1_witness :
    0 ≤ (calculateScore defaultRiskScorer extremeGaze extremeObjects
        extremeBehavior).risk_score ∧
      (calculateScore defaultRiskScorer extremeGaze extremeObjects
        extremeBehavior).risk_score ≤ 100 :=
  c1_risk_score_range defaultRiskScorer extremeGaze extremeObjects extremeBehavior
    (by norm_num [defaultRiskScorer, Settings.SECONDARY_PERSON_WEIGHT])
    (by norm_num [defaultRiskScorer, Settings.FORBIDDEN_OBJECT_WEIGHT])
    (by norm_num [defaultRiskScorer, Settings.SCREEN_DEVIATION_BASE_WEIGHT])
    (by norm_num [defaultRiskScorer, Settings.SCREEN_DEVIATION_EXTENDED_WEIGHT])
    (by norm_num [defaultRiskScorer, Settings.SCREEN_DEVIATION_CRITICAL_WEIGHT])
    (by norm_num [defaultRiskScorer, Settings.MULTIPLE_VIOLATIONS_MULTIPLIER])
    (by norm_num [extremeBehavior])
    (by
      intro item hitem
      simp only [extremeObjects, List.mem_replicate] at hitem
      rw [hitem.2]
      norm_num)

/-! ## C9 -/

/-- C9, counterexample: with the configured
`SECONDARY_PERSON_WEIGHT = 60`, the scenario `person_count = 3` with
no other violations yields `secondary_person_weight × 2 = 120`,
which the cap reduces to a returned `risk_score` of `100`, not
`120`. -/
theorem c9_counterexample :
    (calculateScore defaultRiskScorer gazeNoDeviation threePersonObjects
        behaviorZero).risk_score = 100 ∧
      defaultRiskScorer.secondary_person_weight * 2 = 120 ∧
      (100 : ℚ) ≠ 120 := by
  norm_num [calculateScore_risk_score, scoreAfterMultiplier, summedBaseScore,
    violationCount, gazeViolated, screenDeviationWeight, objectScore, personScore,
    behaviorZero, gazeNoDeviation, threePersonObjects, defaultRiskScorer,
    Settings.SECONDARY_PERSON_WEIGHT]

/-- C9 (amended): for `person_count = 3` and no other violations the
scorer accumulates `secondary_person_weight × 2` (visible as the
`base_score` detail) and returns
`risk_score = min(secondary_person_weight × 2, 100)`, with
`violation_count = 1` and no concurrency multiplier applied. -/
theorem c9_three_persons_score :
    (calculateScore defaultRiskScorer gazeNoDeviation threePersonObjects
        behaviorZero).base_score
        = defaultRiskScorer.secondary_person_weight * 2 ∧
      (calculateScore defaultRiskScorer gazeNoDeviation threePersonObjects
        behaviorZero).risk_score
        = min (defaultRiskScorer.secondary_person_weight * 2) 100 ∧
      (calculateScore defaultRiskScorer gazeNoDeviation threePersonObjects
        behaviorZero).violation_count = 1 ∧
      (calculateScore defaultRiskScorer gazeNoDeviation threePersonObjects
        behaviorZero).multiplier_applied = false := by
  norm_num [calculateScore, scoreAfterMultiplier, summedBaseScore,
    violationCount, gazeViolated, screenDeviationWeight, objectScore, personScore,
    behaviorZero, gazeNoDeviation, threePersonObjects, defaultRiskScorer,
    Settings.SECONDARY_PERSON_WEIGHT]

/-! ## C6 -/

/-- C6: a no-face frame, from any prior detector state, reports
`face_detected = false`, `deviation = false`,
`deviation_duration = 0`, and hard-resets the timer triple
(deviation start time cleared). -/
theorem c6_no_face_hard_reset (st : GazeState) (t : ℚ) :
    ((detectSync st none t).2).face_detected = false ∧
      ((detectSync st none t).2).deviation = false ∧
      ((detectSync st none t).2).deviation_duration = 0 ∧
      ((detectSync st none t).1).deviationStart = none ∧
      ((detectSync st none t).1).currentDuration = 0 ∧
      ((detectSync st none t).1).lastNormal = none :=
  ⟨rfl, rfl, rfl, rfl, rfl, rfl⟩

/-! ## C3 -/

/-- C3, counterexample: during GRACE the reported duration stays
frozen at its pre-grace value `2`; it does not keep accumulating
from the original start time (which would give `3` then `4`),
even though the start time is retained. -/
theorem c3_counterexample :
    c3AfterDeviating.currentDuration = 2 ∧
      c3Grace1.currentDuration = 2 ∧
      c3Grace2.currentDuration = 2 ∧
      c3Grace2.deviationStart = some 0 ∧
      ((2 : ℚ) ≠ 3 ∧ (2 : ℚ) ≠ 4) := by
  norm_num [c3Grace2, c3Grace1, c3AfterDeviating, updateDeviationDurationWithGrace,
    initGazeState, Settings.DEVIATION_GRACE_PERIOD]

/-- C3 (amended): while in GRACE (a deviation start time is
recorded, the frame shows no sustained deviation, and the time since
normal gaze resumed is still below the grace period) the reported
duration is held frozen at its pre-grace value and the original
start time is retained — so that if sustained deviation resumes the
duration again accumulates from the original start time, grace
interval included. -/
theorem c3_grace_freezes_duration (st : GazeState) (s t : ℚ)
    (hs : st.deviationStart = some s)
    (hg : t - st.lastNormal.getD t < Settings.DEVIATION_GRACE_PERIOD) :
    (updateDeviationDurationWithGrace st false t).currentDuration
        = st.currentDuration ∧
      (updateDeviationDurationWithGrace st false t).deviationStart = some s ∧
      (updateDeviationDurationWithGrace st true t).currentDuration = t - s := by
  simp only [updateDeviationDurationWithGrace, hs, Option.getD_some,
    Bool.false_eq_true, if_false, Bool.true_eq_false, if_true]
  rw [if_neg (not_le.mpr hg)]
  simp

/-- C3 witness: the grace theorem applied to the state reached after
deviating over `[0, 2]` and resuming normal gaze at `t = 3`,
evaluated at `t = 4`. -/
theorem c3_grace_witness :
    (updateDeviationDurationWithGrace c3Grace1 false 4).currentDuration
        = c3Grace1.currentDuration ∧
      (updateDeviationDurationWithGrace c3Grace1 false 4).deviationStart = some 0 ∧
      (updateDeviationDurationWithGrace c3Grace1 true 4).currentDuration = 4 - 0 :=
  c3_grace_freezes_duration c3Grace1 0 4
    (by norm_num [c3Grace1, c3AfterDeviating, updateDeviationDurationWithGrace,
      initGazeState, Settings.DEVIATION_GRACE_PERIOD])
    (by norm_num [c3Grace1, c3AfterDeviating, updateDeviationDurationWithGrace,
      initGazeState, Settings.DEVIATION_GRACE_PERIOD])

/-! ## C4 -/

/-- C4: the scorer's `violation_count` equals the number of distinct
violation types present (all forbidden items together count as one
type); the concurrency multiplier is applied to the summed base
score if and only if at least two types are present; and the
behavioral pattern score is added after the multiplication step,
unmultiplied, before the cap. -/
theorem c4_concurrency_multiplier (rs : RiskScorer) (gaze : GazeResults)
    (objects : ObjectResults) (behavior : BehaviorResults) :
    (calculateScore rs gaze objects behavior).violation_count
        = specViolationTypes gaze objects ∧
      ((calculateScore rs gaze objects behavior).multiplier_applied = true ↔
        2 ≤ specViolationTypes gaze objects) ∧
      (calculateScore rs gaze objects behavior).risk_score
        = min ((if 2 ≤ specViolationTypes gaze objects then
              summedBaseScore rs gaze objects * rs.multiple_violations_multiplier
            else summedBaseScore rs gaze objects)
          + behavior.pattern_score) 100 := by
  have hvc : violationCount gaze objects = specViolationTypes gaze objects := by
    unfold violationCount specViolationTypes gazeViolated
    cases hfi : objects.forbidden_items <;>
      cases hd : gaze.deviation <;>
        by_cases hdur :
            gaze.deviation_duration ≥ Settings.GAZE_DEVIATION_DURATION <;>
          simp [hdur]
  refine ⟨?_, ?_, ?_⟩
  · rw [calculateScore_violation_count, hvc]
  · rw [calculateScore_multiplier_applied, hvc]
    simp only [decide_eq_true_eq]
    omega
  · rw [calculateScore_risk_score]
    unfold scoreAfterMultiplier
    rw [hvc]
    have hite : (if specViolationTypes gaze objects > 1 then
          summedBaseScore rs gaze objects * rs.multiple_violations_multiplier
        else summedBaseScore rs gaze objects)
        = (if 2 ≤ specViolationTypes gaze objects then
          summedBaseScore rs gaze objects * rs.multiple_violations_multiplier
        else summedBaseScore rs gaze objects) := by
      by_cases h2 : 2 ≤ specViolationTypes gaze objects
      · rw [if_pos (by omega : specViolationTypes gaze objects > 1), if_pos h2]
      · rw [if_neg (by omega : ¬specViolationTypes gaze objects > 1), if_neg h2]
    rw [hite]

/-! ## C5 -/

/-- C5: on a frame flagged as sustained deviation, the
screen-deviation contribution reported in the details (and added
into the summed base score) is zero when the duration is below the
3 s minimum, regardless of yaw and pitch, and otherwise is exactly
the weight of the longest satisfied tier (base for 3–10 s, extended
for 10–20 s, critical for ≥ 20 s). -/
theorem c5_screen_deviation_tiers (rs : RiskScorer) (gaze : GazeResults)
    (objects : ObjectResults) (behavior : BehaviorResults)
    (hdev : gaze.deviation = true) :
    (calculateScore rs gaze objects behavior).screen_deviation_contribution
        = screenDeviationWeight rs gaze ∧
      summedBaseScore rs gaze objects
        = screenDeviationWeight rs gaze + objectScore rs objects
          + personScore rs objects ∧
      (gaze.deviation_duration < Settings.GAZE_DEVIATION_DURATION →
        screenDeviationWeight rs gaze = 0) ∧
      (Settings.GAZE_DEVIATION_DURATION ≤ gaze.deviation_duration →
        gaze.deviation_duration < Settings.GAZE_EXTENDED_DURATION →
        screenDeviationWeight rs gaze = rs.screen_deviation_base_weight) ∧
      (Settings.GAZE_EXTENDED_DURATION ≤ gaze.deviation_duration →
        gaze.deviation_duration < Settings.GAZE_CRITICAL_DURATION →
        screenDeviationWeight rs gaze = rs.screen_deviation_extended_weight) ∧
      (Settings.GAZE_CRITICAL_DURATION ≤ gaze.deviation_duration →
        screenDeviationWeight rs gaze = rs.screen_deviation_critical_weight) := by
  have hDE : Settings.GAZE_DEVIATION_DURATION ≤ Settings.GAZE_EXTENDED_DURATION := by
    norm_num [Settings.GAZE_DEVIATION_DURATION, Settings.GAZE_EXTENDED_DURATION]
  have hEC : Settings.GAZE_EXTENDED_DURATION ≤ Settings.GAZE_CRITICAL_DURATION := by
    norm_num [Settings.GAZE_EXTENDED_DURATION, Settings.GAZE_CRITICAL_DURATION]
  refine ⟨rfl, rfl, ?_, ?_, ?_, ?_⟩
  · intro h
    unfold screenDeviationWeight
    rw [if_pos hdev, if_neg (not_le.mpr h)]
  · intro h1 h2
    unfold screenDeviationWeight
    rw [if_pos hdev, if_pos h1, if_neg (not_le.mpr (lt_of_lt_of_le h2 hEC)),
      if_neg (not_le.mpr h2)]
  · intro h1 h2
    unfold screenDeviationWeight
    rw [if_pos hdev, if_pos (le_trans hDE h1), if_neg (not_le.mpr h2), if_pos h1]
  · intro h1
    unfold screenDeviationWeight
    rw [if_pos hdev, if_pos (le_trans (le_trans hDE hEC) h1), if_pos h1]

/-- C5 witness: the tier theorem applied to a sustained deviation of
5 seconds (base tier) with no objects in frame. -/
theorem c5_witness :
    (calculateScore defaultRiskScorer baseTierGaze emptyObjectResults
        behaviorZero).screen_deviation_contribution
        = screenDeviationWeight defaultRiskScorer baseTierGaze ∧
      summedBaseScore defaultRiskScorer baseTierGaze emptyObjectResults
        = screenDeviationWeight defaultRiskScorer baseTierGaze
          + objectScore defaultRiskScorer emptyObjectResults
          + personScore defaultRiskScorer emptyObjectResults ∧
      (baseTierGaze.deviation_duration < Settings.GAZE_DEVIATION_DURATION →
        screenDeviationWeight defaultRiskScorer baseTierGaze = 0) ∧
      (Settings.GAZE_DEVIATION_DURATION ≤ baseTierGaze.deviation_duration →
        baseTierGaze.deviation_duration < Settings.GAZE_EXTENDED_DURATION →
        screenDeviationWeight defaultRiskScorer baseTierGaze
          = defaultRiskScorer.screen_deviation_base_weight) ∧
      (Settings.GAZE_EXTENDED_DURATION ≤ baseTierGaze.deviation_duration →
        baseTierGaze.deviation_duration < Settings.GAZE_CRITICAL_DURATION →
        screenDeviationWeight defaultRiskScorer baseTierGaze
          = defaultRiskScorer.screen_deviation_extended_weight) ∧
      (Settings.GAZE_CRITICAL_DURATION ≤ baseTierGaze.deviation_duration →
        screenDeviationWeight defaultRiskScorer baseTierGaze
          = defaultRiskScorer.screen_deviation_critical_weight) :=
  c5_screen_deviation_tiers defaultRiskScorer baseTierGaze emptyObjectResults
    behaviorZero rfl

/-! ## C7 -/

/-- C7: under a configuration with `0 < min_fps ≤ max_fps` (as the
pipeline configures), the sampler always admits the first frame of a
session, and admits every later frame iff (the motion score exceeds
the threshold and the time since the last admission is at least
`1/max_fps`) or the time since the last admission is at least
`1/min_fps` regardless of motion; admission stores the new frame
and timestamp. -/
theorem c7_frame_admission (cfg : SamplerConfig) (st : SamplerState)
    (grayBlur : List ℚ) (t : ℚ)
    (hmin : 0 < cfg.min_fps) (hle : cfg.min_fps ≤ cfg.max_fps) :
    AdmissionSpec cfg st grayBlur t := by
  have hinv : 1 / cfg.max_fps ≤ 1 / cfg.min_fps := one_div_le_one_div_of_le hmin hle
  have hinv2 : cfg.max_fps⁻¹ ≤ cfg.min_fps⁻¹ := by
    rw [← one_div, ← one_div]
    exact hinv
  unfold AdmissionSpec shouldProcessFrame
  rcases hpg : st.prevGray with _ | prev
  · simp
  · refine ⟨by simp, ?_, ?_⟩
    · intro p hp
      injection hp with hp
      subst hp
      by_cases h1 : motionScore prev grayBlur > cfg.motion_threshold <;>
        by_cases h2 : cfg.max_fps⁻¹ ≤ t - st.lastProcessTime <;>
          by_cases h3 : cfg.min_fps⁻¹ ≤ t - st.lastProcessTime <;>
            simp [h1, h2, h3, one_div] <;>
              exact h2 (le_trans hinv2 h3)
    · intro h
      by_cases h1 : motionScore prev grayBlur > cfg.motion_threshold <;>
        by_cases h2 : cfg.max_fps⁻¹ ≤ t - st.lastProcessTime <;>
          by_cases h3 : cfg.min_fps⁻¹ ≤ t - st.lastProcessTime <;>
            first
              | (simp [h1, h2, h3, one_div]; done)
              | (simp [h1, h2, h3, one_div] at h)

/-- C7 witness: the admission theorem applied to the pipeline's
sampler configuration and a mid-session sampler state. -/
theorem c7_witness :
    AdmissionSpec pipelineSamplerConfig midSessionSampler [100] 1 :=
  c7_frame_admission pipelineSamplerConfig midSessionSampler [100] 1
    (by norm_num [pipelineSamplerConfig])
    (by norm_num [pipelineSamplerConfig])

/-! ## C8 -/

/-- C8: for every window size, every session and every sequence of
updates (tagged with arbitrary session ids), the session's sliding
window deques never exceed the window size; and a push into a
session history at capacity evicts exactly the oldest entry of each
deque (FIFO) while appending the new one. -/
theorem c8_window_bounded_fifo (n : Nat)
    (updates : List (String × DetectionEntry)) (sid : String) :
    historyLengthsLE n (runBehaviorUpdates n updates sid) ∧
      (∀ (h : SessionHistory) (d : DetectionEntry), 0 < n →
        h.gaze_deviations.length = n → h.forbidden_objects.length = n →
        h.person_counts.length = n → h.timestamps.length = n →
        pushEntry n h d =
          { gaze_deviations := h.gaze_deviations.drop 1 ++ [d.gaze_deviation]
            forbidden_objects := h.forbidden_objects.drop 1 ++ [d.forbidden_items]
            person_counts := h.person_counts.drop 1 ++ [d.person_count]
            timestamps := h.timestamps.drop 1 ++ [d.timestamp] }) := by
  refine ⟨runBehaviorUpdates_lengths_le n updates sid, ?_⟩
  intro h d hn h1 h2 h3 h4
  unfold pushEntry
  rw [dequePush_at_capacity n _ _ hn h1, dequePush_at_capacity n _ _ hn h2,
    dequePush_at_capacity n _ _ hn h3, dequePush_at_capacity n _ _ hn h4]

/-- C8 witness: the window theorem applied at window size 2 to a
four-update interleaved sequence and to a concrete at-capacity
history. -/
theorem c8_witness :
    historyLengthsLE 2 (runBehaviorUpdates 2 witnessUpdates "s1") ∧
      pushEntry 2 fullHistoryTwo witnessEntry =
        { gaze_deviations :=
            fullHistoryTwo.gaze_deviations.drop 1 ++ [witnessEntry.gaze_deviation]
          forbidden_objects :=
            fullHistoryTwo.forbidden_objects.drop 1 ++ [witnessEntry.forbidden_items]
          person_counts :=
            fullHistoryTwo.person_counts.drop 1 ++ [witnessEntry.person_count]
          timestamps :=
            fullHistoryTwo.timestamps.drop 1 ++ [witnessEntry.timestamp] } :=
  ⟨(c8_window_bounded_fifo 2 witnessUpdates "s1").1,
    (c8_window_bounded_fifo 2 witnessUpdates "s1").2 fullHistoryTwo witnessEntry
      (by norm_num) rfl rfl rfl rfl⟩

/-! ## C10 -/

/-- C10: a no-face frame leaves the smoothing and consistency
histories untouched (only the timer triple is reset), so on the
trace where three deviating frames precede a face loss, the stored
deviation flags still fill the consistency window when the face
returns, and the very first frame after the return is already
reported as a sustained deviation — with a freshly started timer
(duration 0, start time at the return frame). -/
theorem c10_consistency_survives_face_loss :
    (∀ (st : GazeState) (t : ℚ),
        ((detectSync st none t).1).deviationHistory = st.deviationHistory ∧
          ((detectSync st none t).1).yawHistory = st.yawHistory ∧
          ((detectSync st none t).1).pitchHistory = st.pitchHistory) ∧
      (c10AfterLoss.1.deviationHistory = [true, true, true] ∧
        c10AfterLoss.2.deviation = false ∧
        c10AfterLoss.2.deviation_duration = 0 ∧
        c10Return.2.face_detected = true ∧
        c10Return.2.deviation = true ∧
        c10Return.2.deviation_duration = 0 ∧
        c10Return.1.deviationStart = some 4) := by
  constructor
  · intro st t
    exact ⟨rfl, rfl, rfl⟩
  · norm_num [c10Return, c10AfterLoss, c10ThreeDeviating, detectSync, sidewaysFace,
      initGazeState, dequePush, listMean, checkDeviation, deviationConsistency,
      updateDeviationDurationWithGrace, Settings.HEAD_POSE_SMOOTHING_WINDOW,
      Settings.SCREEN_YAW_THRESHOLD, Settings.SCREEN_PITCH_THRESHOLD,
      Settings.MINOR_YAW_THRESHOLD, Settings.MINOR_PITCH_THRESHOLD,
      Settings.DEVIATION_CONSISTENCY_THRESHOLD, Settings.DEVIATION_GRACE_PERIOD,
      List.filter]

/-! ## C2 -/

/-- C2, counterexample: the single global pipeline shares one gaze
detector and one frame sampler among all sessions (only the behavior
analyzer is keyed by session id). In world 1, session B's frame at
`t = 0.6` is fully processed; in world 2 — identical except that
session A's frame was processed at `t = 0.55` — the shared sampler's
stored frame and admission timestamp were replaced by A's frame, so
B's same frame is skipped. The result computed for B's next frame
therefore depends on whether A's frame was processed. -/
theorem c2_counterexample :
    c2World1B2.frame_skipped = false ∧ c2World2B2.frame_skipped = true := by
  norm_num [c2World1B2, c2World2B2, c2AfterA, c2AfterB1, processFrame,
    shouldProcessFrame, motionScore, listMean, pipelineSamplerConfig,
    initPipelineState, initSamplerState, quietFrame, brightFrame,
    skippedFrameResults, detectSync, initGazeState]

/-- C2 (amended): only the behavior analyzer's history is keyed by
session id: processing a frame for session A leaves session B's
behavior history unchanged. The gaze detector state and the frame
sampler are shared mutable singletons of the global pipeline, so
processing A's frame can change the result computed for B's next
frame (see the counterexample). -/
theorem c2_behavior_isolated_per_session (ps : PipelineState)
    (sidA sidB : String) (input : FrameInput) (t : ℚ) (hne : sidB ≠ sidA) :
    ((processFrame ps sidA input t).1).behavior sidB = ps.behavior sidB := by
  unfold processFrame
  by_cases hc :
      (shouldProcessFrame pipelineSamplerConfig ps.sampler input.grayBlur t).1
        = true
  · simp only [hc, if_true]
    unfold updateHistory
    exact Function.update_noteq hne _ _
  · simp [hc]

/-- C2 witness: processing a frame for session A from the fresh
pipeline leaves session B's behavior history unchanged. -/
theorem c2_witness :
    ((processFrame initPipelineState "A" quietFrame 0).1).behavior "B"
      = initPipelineState.behavior "B" :=
  c2_behavior_isolated_per_session initPipelineState "A" "B" quietFrame 0
    (by decide)

end Proctoring
